import Mathlib

/-!
Verification of the actor/message-passing core of `ph-actors-tcc`.

The embedding covers:
* `src/net.rs` — the `Net` handle: mock-mode dispatch of the five HTTP verbs
  against a lock-guarded table keyed by `MockRequestKey`, and live-mode
  dispatch through a queue send followed by a one-shot receive, each wrapped
  with its own error context.
* `src/api/lore.rs` — the `LoreApi` facade: mock-mode dispatch of the five
  domain operations against a table keyed by formatted strings such as
  `patch_feed_<list>_<index>`.
* `src/log/data.rs` — `LogLevel` with its `Display` and `FromStr` instances.

Rust `ArcStr` payloads are modelled as `String`; the `HashMap` behind the
mock mutex is modelled as an association list with its lookup function;
`anyhow::Error` is modelled as a root message plus the chain of `.context`
strings wrapped around it; `Result<ArcStr, anyhow::Error>` becomes `Except`.
-/

namespace PhActors

/-- Modelled from the spec: the file `src/net/message.rs` defining
`MockRequestKey` is not among the staged sources. Per the spec, transport
layer mock keys are built on the pair (verb, url), with structural, total
equality; the verbs are the five supported HTTP operations. -/
inductive HttpVerb : Type
  | get
  | post
  | put
  | delete
  | patch
deriving DecidableEq

/-- Modelled from the spec: the canonical transport-layer operation key,
an immutable (verb, url) pair with structural equality and hashing
(`MockRequestKey` in `src/net/message.rs`, absent from the staged sources). -/
structure MockRequestKey where
  verb : HttpVerb
  url : String
deriving DecidableEq

/-- Constructor used by the mock arm of `Net::get` (`MockRequestKey::get`). -/
def MockRequestKey.get (url : String) : MockRequestKey :=
  ⟨HttpVerb.get, url⟩

/-- Constructor used by the mock arm of `Net::post` (`MockRequestKey::post`). -/
def MockRequestKey.post (url : String) : MockRequestKey :=
  ⟨HttpVerb.post, url⟩

/-- Constructor used by the mock arm of `Net::put` (`MockRequestKey::put`). -/
def MockRequestKey.put (url : String) : MockRequestKey :=
  ⟨HttpVerb.put, url⟩

/-- Constructor used by the mock arm of `Net::delete` (`MockRequestKey::delete`). -/
def MockRequestKey.delete (url : String) : MockRequestKey :=
  ⟨HttpVerb.delete, url⟩

/-- Constructor used by the mock arm of `Net::patch` (`MockRequestKey::patch`). -/
def MockRequestKey.patch (url : String) : MockRequestKey :=
  ⟨HttpVerb.patch, url⟩

/-- The mock response table, modelling the `HashMap` held behind
`Arc<Mutex<..>>` in both `Net::Mock` and `LoreApi::Mock` as an association
list. -/
abbrev Table (κ : Type) : Type := List (κ × String)

/-- Lookup in the mock table, modelling `HashMap::get`. -/
def tableGet {κ : Type} [DecidableEq κ] (key : κ) : Table κ → Option String
  | [] => none
  | (k, v) :: rest => if k = key then some v else tableGet key rest

/-- The shape shared by every mock arm: look the key up in the table and
return the stored value, or the miss error message. Used to state which key
each operation consults. -/
def mockLookup {κ : Type} [DecidableEq κ] (table : Table κ) (key : κ)
    (missMsg : String) : Except String String :=
  match tableGet key table with
  | some v => Except.ok v
  | none => Except.error missMsg

/-- Headers argument of the transport operations
(`Option<HashMap<ArcStr, ArcStr>>`). -/
abbrev Headers : Type := List (String × String)

/-- Mock arm of `Net::get` (src/net.rs lines 83-90): look up
`MockRequestKey::get(url)` and on a miss report
"GET request not found in mock responses: " followed by the key's url.
The table is returned unchanged, as the code only reads it. -/
def Net.mockGet (table : Table MockRequestKey) (url : String)
    (headers : Option Headers) : Except String String × Table MockRequestKey :=
  let key := MockRequestKey.get url
  (match tableGet key table with
   | some v => Except.ok v
   | none => Except.error ("GET request not found in mock responses: " ++ key.url),
   table)

/-- Mock arm of `Net::post` (src/net.rs lines 109-116). -/
def Net.mockPost (table : Table MockRequestKey) (url : String)
    (headers : Option Headers) (body : Option String) :
    Except String String × Table MockRequestKey :=
  let key := MockRequestKey.post url
  (match tableGet key table with
   | some v => Except.ok v
   | none => Except.error ("POST request not found in mock responses: " ++ key.url),
   table)

/-- Mock arm of `Net::put` (src/net.rs lines 135-142). -/
def Net.mockPut (table : Table MockRequestKey) (url : String)
    (headers : Option Headers) (body : Option String) :
    Except String String × Table MockRequestKey :=
  let key := MockRequestKey.put url
  (match tableGet key table with
   | some v => Except.ok v
   | none => Except.error ("PUT request not found in mock responses: " ++ key.url),
   table)

/-- Mock arm of `Net::delete` (src/net.rs lines 160-167). -/
def Net.mockDelete (table : Table MockRequestKey) (url : String)
    (headers : Option Headers) : Except String String × Table MockRequestKey :=
  let key := MockRequestKey.delete url
  (match tableGet key table with
   | some v => Except.ok v
   | none => Except.error ("DELETE request not found in mock responses: " ++ key.url),
   table)

/-- Mock arm of `Net::patch` (src/net.rs lines 186-193). -/
def Net.mockPatch (table : Table MockRequestKey) (url : String)
    (headers : Option Headers) (body : Option String) :
    Except String String × Table MockRequestKey :=
  let key := MockRequestKey.patch url
  (match tableGet key table with
   | some v => Except.ok v
   | none => Except.error ("PATCH request not found in mock responses: " ++ key.url),
   table)

/-- Key computed by the mock arm of `LoreApi::get_patch_feed`
(src/api/lore.rs line 118): `format!("patch_feed_{}_{}", target_list, min_index)`. -/
def patchFeedKey (targetList : String) (minIndex : Nat) : String :=
  "patch_feed_" ++ targetList ++ "_" ++ toString minIndex

/-- Key computed by the mock arm of `LoreApi::get_available_lists`
(src/api/lore.rs line 154): `format!("available_lists_{}", min_index)`. -/
def availableListsKey (minIndex : Nat) : String :=
  "available_lists_" ++ toString minIndex

/-- Key computed by the mock arm of `LoreApi::get_patch_html`
(src/api/lore.rs line 199): `format!("patch_html_{}_{}", target_list, message_id)`. -/
def patchHtmlKey (targetList : String) (messageId : String) : String :=
  "patch_html_" ++ targetList ++ "_" ++ messageId

/-- Key computed by the mock arm of `LoreApi::get_raw_patch`
(src/api/lore.rs line 244): `format!("raw_patch_{}_{}", target_list, message_id)`. -/
def rawPatchKey (targetList : String) (messageId : String) : String :=
  "raw_patch_" ++ targetList ++ "_" ++ messageId

/-- Key computed by the mock arm of `LoreApi::get_patch_metadata`
(src/api/lore.rs line 289): `format!("patch_metadata_{}_{}", target_list, message_id)`. -/
def patchMetadataKey (targetList : String) (messageId : String) : String :=
  "patch_metadata_" ++ targetList ++ "_" ++ messageId

/-- Mock arm of `LoreApi::get_patch_feed` (src/api/lore.rs lines 116-124). -/
def LoreApi.mockGetPatchFeed (table : Table String) (targetList : String)
    (minIndex : Nat) : Except String String × Table String :=
  let key := patchFeedKey targetList minIndex
  (match tableGet key table with
   | some v => Except.ok v
   | none => Except.error ("Patch feed not found in mock responses: " ++ key),
   table)

/-- Mock arm of `LoreApi::get_available_lists` (src/api/lore.rs lines 152-160). -/
def LoreApi.mockGetAvailableLists (table : Table String) (minIndex : Nat) :
    Except String String × Table String :=
  let key := availableListsKey minIndex
  (match tableGet key table with
   | some v => Except.ok v
   | none => Except.error ("Available lists not found in mock responses: " ++ key),
   table)

/-- Mock arm of `LoreApi::get_patch_html` (src/api/lore.rs lines 197-205). -/
def LoreApi.mockGetPatchHtml (table : Table String) (targetList : String)
    (messageId : String) : Except String String × Table String :=
  let key := patchHtmlKey targetList messageId
  (match tableGet key table with
   | some v => Except.ok v
   | none => Except.error ("Patch HTML not found in mock responses: " ++ key),
   table)

/-- Mock arm of `LoreApi::get_raw_patch` (src/api/lore.rs lines 242-250). -/
def LoreApi.mockGetRawPatch (table : Table String) (targetList : String)
    (messageId : String) : Except String String × Table String :=
  let key := rawPatchKey targetList messageId
  (match tableGet key table with
   | some v => Except.ok v
   | none => Except.error ("Raw patch not found in mock responses: " ++ key),
   table)

/-- Mock arm of `LoreApi::get_patch_metadata` (src/api/lore.rs lines 287-295). -/
def LoreApi.mockGetPatchMetadata (table : Table String) (targetList : String)
    (messageId : String) : Except String String × Table String :=
  let key := patchMetadataKey targetList messageId
  (match tableGet key table with
   | some v => Except.ok v
   | none => Except.error ("Patch metadata not found in mock responses: " ++ key),
   table)

/-- The patch-feed mock key as the spec's words give it:
`"patch_feed_{target_list}_{min_index}"`. -/
def specPatchFeedKey (targetList : String) (minIndex : Nat) : String :=
  "patch_feed_" ++ targetList ++ "_" ++ toString minIndex

/-- The available-lists mock key as the spec's words give it:
`"available_lists_{min_index}"`. -/
def specAvailableListsKey (minIndex : Nat) : String :=
  "available_lists_" ++ toString minIndex

/-- The patch-html mock key as the spec's words give it:
`"patch_html_{target_list}_{message_id}"`. -/
def specPatchHtmlKey (targetList : String) (messageId : String) : String :=
  "patch_html_" ++ targetList ++ "_" ++ messageId

/-- The raw-patch mock key as the spec's words give it:
`"raw_patch_{target_list}_{message_id}"`. -/
def specRawPatchKey (targetList : String) (messageId : String) : String :=
  "raw_patch_" ++ targetList ++ "_" ++ messageId

/-- The patch-metadata mock key as the spec's words give it:
`"patch_metadata_{target_list}_{message_id}"`. -/
def specPatchMetadataKey (targetList : String) (messageId : String) : String :=
  "patch_metadata_" ++ targetList ++ "_" ++ messageId

/-- The string `sub` occurs contiguously inside `msg`. -/
def strContains (msg sub : String) : Prop :=
  ∃ p q, msg = p ++ sub ++ q

/-- Any message ending in `sub` contains `sub`. -/
theorem strContains_append (p sub : String) : strContains (p ++ sub) sub :=
  ⟨p, "", by simp⟩

/-- Modelled from the spec: `anyhow::Error` with `.context(..)` wrapping — a
root cause message plus the chain of context strings wrapped around it, most
recent first. -/
structure AnyError where
  root : String
  chain : List String
deriving DecidableEq

/-- The `anyhow::Context::context` combinator: wrap one more context string. -/
def AnyError.addContext (e : AnyError) (c : String) : AnyError :=
  ⟨e.root, c :: e.chain⟩

/-- Modelled from the spec: outcome of `Sender::send` on the owner task's
queue — either delivered, or the queue is closed because the owner task is
gone. -/
inductive SendOutcome : Type
  | delivered
  | closed

/-- Modelled from the spec: outcome of awaiting the one-shot Reply Slot —
either exactly one value arrives, or the producer side was abandoned because
the owner task died mid-operation. -/
inductive RecvOutcome (α : Type) : Type
  | value (a : α)
  | abandoned

/-- Live arm shared by every operation of both actors (for example
src/net.rs lines 78-82 and src/api/lore.rs lines 104-115): send the request
message, wrapping a send failure with the sending context via `?`; then await
the reply slot, wrapping a receive failure with the receiving context via
`?`; otherwise return the operation's own result unchanged. Channel outcomes
are modelled from the spec; the context strings are the source's. -/
def liveDispatch {α : Type} (sendCtx recvCtx : String) (sendRoot recvRoot : String)
    (send : SendOutcome) (recv : RecvOutcome (Except AnyError α)) :
    Except AnyError α :=
  match send with
  | SendOutcome.closed => Except.error (AnyError.addContext ⟨sendRoot, []⟩ sendCtx)
  | SendOutcome.delivered =>
    match recv with
    | RecvOutcome.abandoned => Except.error (AnyError.addContext ⟨recvRoot, []⟩ recvCtx)
    | RecvOutcome.value r => r

/-- Live arm of `Net::get` (src/net.rs lines 78-82): contexts
"Sending message to Net actor" and "Receiving response from Net actor". -/
def Net.liveGet (sendRoot recvRoot : String) (send : SendOutcome)
    (recv : RecvOutcome (Except AnyError String)) : Except AnyError String :=
  liveDispatch "Sending message to Net actor" "Receiving response from Net actor"
    sendRoot recvRoot send recv

/-- Live arm of `LoreApi::get_patch_feed` (src/api/lore.rs lines 104-115):
contexts "Sending message to LoreApi actor" and
"Receiving response from LoreApi actor". -/
def LoreApi.liveGetPatchFeed (sendRoot recvRoot : String) (send : SendOutcome)
    (recv : RecvOutcome (Except AnyError String)) : Except AnyError String :=
  liveDispatch "Sending message to LoreApi actor" "Receiving response from LoreApi actor"
    sendRoot recvRoot send recv

/-- Modelled from the spec: the Owner Task core (`src/net/core.rs`,
`src/api/lore/core.rs`) is not among the staged sources. Spec §4.2: the task
sequentially drains the request queue, performing each operation fully and
writing exactly one reply into its Reply Slot before pulling the next
message. One step of the owner task takes the state (pending queue, replies
delivered so far), processes the message at the head of the queue atomically
— no other processing interleaves within a step — and appends its reply. -/
inductive OwnerStep {Req Resp : Type} (handle : Req → Resp) :
    List Req × List Resp → List Req × List Resp → Prop
  | proc (r : Req) (q : List Req) (done : List Resp) :
      OwnerStep handle (r :: q, done) (q, done ++ [handle r])

/-- An execution of the owner task: any finite number of `OwnerStep`s. -/
def OwnerRun {Req Resp : Type} (handle : Req → Resp)
    (s t : List Req × List Resp) : Prop :=
  Relation.ReflTransGen (OwnerStep handle) s t

/-- Invariant of owner-task executions: on reaching an empty queue, the
replies are the prior replies followed by one reply per pending request, in
queue order. -/
theorem ownerRun_out {Req Resp : Type} (handle : Req → Resp) :
    ∀ (q : List Req) (done rs : List Resp),
      OwnerRun handle (q, done) ([], rs) → rs = done ++ q.map handle := by
  intro q
  induction q with
  | nil =>
    intro done rs h
    rcases h.cases_head with heq | ⟨c, hstep, _⟩
    · cases heq
      simp
    · cases hstep
  | cons r q ih =>
    intro done rs h
    rcases h.cases_head with heq | ⟨c, hstep, hrest⟩
    · cases heq
    · cases hstep
      have := ih (done ++ [handle r]) rs hrest
      simpa [List.append_assoc] using this

/-- `LogLevel` from src/log/data.rs: `Info < Warning < Error`. -/
inductive LogLevel : Type
  | info
  | warning
  | error
deriving DecidableEq

/-- The `Display` impl for `LogLevel` (src/log/data.rs lines 56-64). -/
def LogLevel.display : LogLevel → String
  | LogLevel.info => "INFO"
  | LogLevel.warning => "WARN"
  | LogLevel.error => "ERROR"

/-- Rust's `str::to_lowercase`, modelled per character (the ASCII case
mapping of `Char.toLower` suffices for the level names' alphabet). -/
def lowerStr (s : String) : String :=
  ⟨s.data.map Char.toLower⟩

/-- The `FromStr` impl for `LogLevel` (src/log/data.rs lines 66-77): match on
the lowercased input, accepting "info", "warn" or "warning", and "error";
anything else is the error `Invalid log level: <input>`. -/
def LogLevel.fromStr (s : String) : Except String LogLevel :=
  if lowerStr s = "info" then Except.ok LogLevel.info
  else if lowerStr s = "warn" then Except.ok LogLevel.warning
  else if lowerStr s = "warning" then Except.ok LogLevel.warning
  else if lowerStr s = "error" then Except.ok LogLevel.error
  else Except.error ("Invalid log level: " ++ s)

/-- A lookup hit returns the stored value. -/
theorem mockLookup_ok {κ : Type} [DecidableEq κ] (t : Table κ) (k : κ)
    (msg v : String) (h : tableGet k t = some v) :
    mockLookup t k msg = Except.ok v := by
  unfold mockLookup
  rw [h]

/-- A lookup miss returns the miss message. -/
theorem mockLookup_miss {κ : Type} [DecidableEq κ] (t : Table κ) (k : κ)
    (msg : String) (h : tableGet k t = none) :
    mockLookup t k msg = Except.error msg := by
  unfold mockLookup
  rw [h]

/-- The lookup result depends on the table only through the entry at the key. -/
theorem mockLookup_congr {κ : Type} [DecidableEq κ] (t₁ t₂ : Table κ) (k : κ)
    (msg : String) (h : tableGet k t₁ = tableGet k t₂) :
    mockLookup t₁ k msg = mockLookup t₂ k msg := by
  unfold mockLookup
  rw [h]

/-- C1: in Mock mode each transport operation looks up the key built by the
matching `MockRequestKey` constructor on the call's url, and each facade
operation looks up exactly the string key the spec's formats give —
`patch_feed_<list>_<index>`, `available_lists_<index>`,
`patch_html_<list>_<id>`, `raw_patch_<list>_<id>`,
`patch_metadata_<list>_<id>` — for every value of the arguments. -/
theorem claim_c1_mock_key_formats :
    ∀ (nt : Table MockRequestKey) (t : Table String) (url l m : String) (i : Nat)
      (h : Option Headers) (b : Option String),
      (Net.mockGet nt url h).1
          = mockLookup nt (MockRequestKey.get url)
              ("GET request not found in mock responses: " ++ url) ∧
      (Net.mockPost nt url h b).1
          = mockLookup nt (MockRequestKey.post url)
              ("POST request not found in mock responses: " ++ url) ∧
      (Net.mockPut nt url h b).1
          = mockLookup nt (MockRequestKey.put url)
              ("PUT request not found in mock responses: " ++ url) ∧
      (Net.mockDelete nt url h).1
          = mockLookup nt (MockRequestKey.delete url)
              ("DELETE request not found in mock responses: " ++ url) ∧
      (Net.mockPatch nt url h b).1
          = mockLookup nt (MockRequestKey.patch url)
              ("PATCH request not found in mock responses: " ++ url) ∧
      (LoreApi.mockGetPatchFeed t l i).1
          = mockLookup t (specPatchFeedKey l i)
              ("Patch feed not found in mock responses: " ++ specPatchFeedKey l i) ∧
      (LoreApi.mockGetAvailableLists t i).1
          = mockLookup t (specAvailableListsKey i)
              ("Available lists not found in mock responses: " ++ specAvailableListsKey i) ∧
      (LoreApi.mockGetPatchHtml t l m).1
          = mockLookup t (specPatchHtmlKey l m)
              ("Patch HTML not found in mock responses: " ++ specPatchHtmlKey l m) ∧
      (LoreApi.mockGetRawPatch t l m).1
          = mockLookup t (specRawPatchKey l m)
              ("Raw patch not found in mock responses: " ++ specRawPatchKey l m) ∧
      (LoreApi.mockGetPatchMetadata t l m).1
          = mockLookup t (specPatchMetadataKey l m)
              ("Patch metadata not found in mock responses: " ++ specPatchMetadataKey l m) := by
  intro nt t url l m i h b
  exact ⟨rfl, rfl, rfl, rfl, rfl, rfl, rfl, rfl, rfl, rfl⟩

/-- C2: round-trip through the mock table — whenever the table holds value
`v` under the operation's computed key, the call returns `Ok v`, the exact
stored value; in particular the table mapping `patch_feed_amd-gfx_0` to
`<feed>X</feed>` makes `get_patch_feed "amd-gfx" 0` return
`Ok "<feed>X</feed>"`. -/
theorem claim_c2_mock_roundtrip :
    (∀ (t : Table String) (l : String) (i : Nat) (v : String),
        tableGet (patchFeedKey l i) t = some v →
        (LoreApi.mockGetPatchFeed t l i).1 = Except.ok v) ∧
    (∀ (t : Table String) (i : Nat) (v : String),
        tableGet (availableListsKey i) t = some v →
        (LoreApi.mockGetAvailableLists t i).1 = Except.ok v) ∧
    (∀ (t : Table String) (l m v : String),
        tableGet (patchHtmlKey l m) t = some v →
        (LoreApi.mockGetPatchHtml t l m).1 = Except.ok v) ∧
    (∀ (t : Table String) (l m v : String),
        tableGet (rawPatchKey l m) t = some v →
        (LoreApi.mockGetRawPatch t l m).1 = Except.ok v) ∧
    (∀ (t : Table String) (l m v : String),
        tableGet (patchMetadataKey l m) t = some v →
        (LoreApi.mockGetPatchMetadata t l m).1 = Except.ok v) ∧
    (∀ (nt : Table MockRequestKey) (url v : String) (h : Option Headers),
        tableGet (MockRequestKey.get url) nt = some v →
        (Net.mockGet nt url h).1 = Except.ok v) ∧
    (LoreApi.mockGetPatchFeed [("patch_feed_amd-gfx_0", "<feed>X</feed>")]
        "amd-gfx" 0).1 = Except.ok "<feed>X</feed>" := by
  refine ⟨?_, ?_, ?_, ?_, ?_, ?_, ?_⟩
  · intro t l i v h
    exact mockLookup_ok t (patchFeedKey l i) _ v h
  · intro t i v h
    exact mockLookup_ok t (availableListsKey i) _ v h
  · intro t l m v h
    exact mockLookup_ok t (patchHtmlKey l m) _ v h
  · intro t l m v h
    exact mockLookup_ok t (rawPatchKey l m) _ v h
  · intro t l m v h
    exact mockLookup_ok t (patchMetadataKey l m) _ v h
  · intro nt url v h hh
    exact mockLookup_ok nt (MockRequestKey.get url) _ v hh
  · rfl

/-- C3: mock-miss behaviour — whenever the table has no entry under the
facade operation's computed key, the result is an error whose message
contains that key; in particular `mock_empty().get_patch_feed "amd-gfx" 0`
yields an error containing `patch_feed_amd-gfx_0`. -/
theorem claim_c3_mock_miss :
    (∀ (t : Table String) (l : String) (i : Nat),
        tableGet (patchFeedKey l i) t = none →
        ∃ e, (LoreApi.mockGetPatchFeed t l i).1 = Except.error e ∧
          strContains e (patchFeedKey l i)) ∧
    (∀ (t : Table String) (i : Nat),
        tableGet (availableListsKey i) t = none →
        ∃ e, (LoreApi.mockGetAvailableLists t i).1 = Except.error e ∧
          strContains e (availableListsKey i)) ∧
    (∀ (t : Table String) (l m : String),
        tableGet (patchHtmlKey l m) t = none →
        ∃ e, (LoreApi.mockGetPatchHtml t l m).1 = Except.error e ∧
          strContains e (patchHtmlKey l m)) ∧
    (∀ (t : Table String) (l m : String),
        tableGet (rawPatchKey l m) t = none →
        ∃ e, (LoreApi.mockGetRawPatch t l m).1 = Except.error e ∧
          strContains e (rawPatchKey l m)) ∧
    (∀ (t : Table String) (l m : String),
        tableGet (patchMetadataKey l m) t = none →
        ∃ e, (LoreApi.mockGetPatchMetadata t l m).1 = Except.error e ∧
          strContains e (patchMetadataKey l m)) ∧
    (∃ e, (LoreApi.mockGetPatchFeed [] "amd-gfx" 0).1 = Except.error e ∧
        strContains e "patch_feed_amd-gfx_0") := by
  refine ⟨?_, ?_, ?_, ?_, ?_, ?_⟩
  · intro t l i h
    exact ⟨_, mockLookup_miss t (patchFeedKey l i) _ h, strContains_append _ _⟩
  · intro t i h
    exact ⟨_, mockLookup_miss t (availableListsKey i) _ h, strContains_append _ _⟩
  · intro t l m h
    exact ⟨_, mockLookup_miss t (patchHtmlKey l m) _ h, strContains_append _ _⟩
  · intro t l m h
    exact ⟨_, mockLookup_miss t (rawPatchKey l m) _ h, strContains_append _ _⟩
  · intro t l m h
    exact ⟨_, mockLookup_miss t (patchMetadataKey l m) _ h, strContains_append _ _⟩
  · exact ⟨_, mockLookup_miss [] (patchFeedKey "amd-gfx" 0) _ rfl,
      strContains_append "Patch feed not found in mock responses: "
        (patchFeedKey "amd-gfx" 0)⟩

/-- C4: FIFO serialization by the owner task — along any execution of the
owner task that drains its queue, each step processes the head message
atomically (no overlap between operations is possible in the step relation),
and the replies produced are exactly one per request, in the order the
requests were enqueued. -/
theorem claim_c4_owner_fifo {Req Resp : Type} (handle : Req → Resp)
    (q : List Req) (rs : List Resp) (h : OwnerRun handle (q, []) ([], rs)) :
    rs = q.map handle := by
  simpa using ownerRun_out handle q [] rs h

/-- Witness for C4: the two-request queue `[1, 2]` handled by `n + 1`
produces the replies `[2, 3]` in enqueue order. -/
theorem claim_c4_owner_fifo_witness :
    ([2, 3] : List Nat) = List.map (fun n => n + 1) [1, 2] :=
  claim_c4_owner_fifo (fun n => n + 1) [1, 2] [2, 3]
    (Relation.ReflTransGen.head (OwnerStep.proc 1 [2] [])
      (Relation.ReflTransGen.head (OwnerStep.proc 2 [] [2])
        Relation.ReflTransGen.refl))

/-- C5: distinct Live-mode failure stages — a closed queue produces an error
wrapped with the sending context, an abandoned reply slot produces an error
wrapped with the distinct receiving context, for both actors and every
underlying cause, and the two context strings differ, so the failure kinds
are distinguishable; the dispatch is a total function, so neither failure
hangs. -/
theorem claim_c5_live_failure_stages :
    (∀ (sr rr : String) (recv : RecvOutcome (Except AnyError String)),
        ∃ e, Net.liveGet sr rr SendOutcome.closed recv = Except.error e ∧
          "Sending message to Net actor" ∈ e.chain) ∧
    (∀ sr rr : String,
        ∃ e, Net.liveGet sr rr SendOutcome.delivered RecvOutcome.abandoned
            = Except.error e ∧
          "Receiving response from Net actor" ∈ e.chain) ∧
    (∀ (sr rr : String) (recv : RecvOutcome (Except AnyError String)),
        ∃ e, LoreApi.liveGetPatchFeed sr rr SendOutcome.closed recv
            = Except.error e ∧
          "Sending message to LoreApi actor" ∈ e.chain) ∧
    (∀ sr rr : String,
        ∃ e, LoreApi.liveGetPatchFeed sr rr SendOutcome.delivered
            RecvOutcome.abandoned = Except.error e ∧
          "Receiving response from LoreApi actor" ∈ e.chain) ∧
    ("Sending message to Net actor" ≠ "Receiving response from Net actor") ∧
    ("Sending message to LoreApi actor" ≠ "Receiving response from LoreApi actor") := by
  refine ⟨?_, ?_, ?_, ?_, by decide, by decide⟩
  · intro sr rr recv
    exact ⟨⟨sr, ["Sending message to Net actor"]⟩, rfl, by simp⟩
  · intro sr rr
    exact ⟨⟨rr, ["Receiving response from Net actor"]⟩, rfl, by simp⟩
  · intro sr rr recv
    exact ⟨⟨sr, ["Sending message to LoreApi actor"]⟩, rfl, by simp⟩
  · intro sr rr
    exact ⟨⟨rr, ["Receiving response from LoreApi actor"]⟩, rfl, by simp⟩

/-- C6: Mock-mode operations never modify the Mock Table — for every
operation of both actors and every table, hit or miss, the table after the
call equals the table before it. -/
theorem claim_c6_mock_table_unchanged :
    ∀ (nt : Table MockRequestKey) (t : Table String) (url l m : String) (i : Nat)
      (h : Option Headers) (b : Option String),
      (Net.mockGet nt url h).2 = nt ∧
      (Net.mockPost nt url h b).2 = nt ∧
      (Net.mockPut nt url h b).2 = nt ∧
      (Net.mockDelete nt url h).2 = nt ∧
      (Net.mockPatch nt url h b).2 = nt ∧
      (LoreApi.mockGetPatchFeed t l i).2 = t ∧
      (LoreApi.mockGetAvailableLists t i).2 = t ∧
      (LoreApi.mockGetPatchHtml t l m).2 = t ∧
      (LoreApi.mockGetRawPatch t l m).2 = t ∧
      (LoreApi.mockGetPatchMetadata t l m).2 = t := by
  intro nt t url l m i h b
  exact ⟨rfl, rfl, rfl, rfl, rfl, rfl, rfl, rfl, rfl, rfl⟩

/-- C7: key-construction determinism and purity — every operation's Mock
result is a pure function of the table's entry at the computed key: two
tables agreeing at that key (in particular, two runs with equal arguments
and equal tables) give equal results. -/
theorem claim_c7_mock_determinism :
    (∀ (t₁ t₂ : Table MockRequestKey) (url : String) (h : Option Headers),
        tableGet (MockRequestKey.get url) t₁ = tableGet (MockRequestKey.get url) t₂ →
        (Net.mockGet t₁ url h).1 = (Net.mockGet t₂ url h).1) ∧
    (∀ (t₁ t₂ : Table String) (l : String) (i : Nat),
        tableGet (patchFeedKey l i) t₁ = tableGet (patchFeedKey l i) t₂ →
        (LoreApi.mockGetPatchFeed t₁ l i).1 = (LoreApi.mockGetPatchFeed t₂ l i).1) ∧
    (∀ (t₁ t₂ : Table String) (i : Nat),
        tableGet (availableListsKey i) t₁ = tableGet (availableListsKey i) t₂ →
        (LoreApi.mockGetAvailableLists t₁ i).1 = (LoreApi.mockGetAvailableLists t₂ i).1) ∧
    (∀ (t₁ t₂ : Table String) (l m : String),
        tableGet (patchHtmlKey l m) t₁ = tableGet (patchHtmlKey l m) t₂ →
        (LoreApi.mockGetPatchHtml t₁ l m).1 = (LoreApi.mockGetPatchHtml t₂ l m).1) ∧
    (∀ (t₁ t₂ : Table String) (l m : String),
        tableGet (rawPatchKey l m) t₁ = tableGet (rawPatchKey l m) t₂ →
        (LoreApi.mockGetRawPatch t₁ l m).1 = (LoreApi.mockGetRawPatch t₂ l m).1) ∧
    (∀ (t₁ t₂ : Table String) (l m : String),
        tableGet (patchMetadataKey l m) t₁ = tableGet (patchMetadataKey l m) t₂ →
        (LoreApi.mockGetPatchMetadata t₁ l m).1 = (LoreApi.mockGetPatchMetadata t₂ l m).1) := by
  refine ⟨?_, ?_, ?_, ?_, ?_, ?_⟩
  · intro t₁ t₂ url h hh
    exact mockLookup_congr t₁ t₂ (MockRequestKey.get url) _ hh
  · intro t₁ t₂ l i h
    exact mockLookup_congr t₁ t₂ (patchFeedKey l i) _ h
  · intro t₁ t₂ i h
    exact mockLookup_congr t₁ t₂ (availableListsKey i) _ h
  · intro t₁ t₂ l m h
    exact mockLookup_congr t₁ t₂ (patchHtmlKey l m) _ h
  · intro t₁ t₂ l m h
    exact mockLookup_congr t₁ t₂ (rawPatchKey l m) _ h
  · intro t₁ t₂ l m h
    exact mockLookup_congr t₁ t₂ (patchMetadataKey l m) _ h

/-- C8: in Mock mode the transport operations ignore headers and body — for
every url and table, any two header maps and any two bodies give the same
result for `get`, `post`, `put`, `delete` and `patch`, because the lookup
key is built from the verb and url only. -/
theorem claim_c8_headers_body_ignored :
    ∀ (nt : Table MockRequestKey) (url : String) (h₁ h₂ : Option Headers)
      (b₁ b₂ : Option String),
      Net.mockGet nt url h₁ = Net.mockGet nt url h₂ ∧
      Net.mockPost nt url h₁ b₁ = Net.mockPost nt url h₂ b₂ ∧
      Net.mockPut nt url h₁ b₁ = Net.mockPut nt url h₂ b₂ ∧
      Net.mockDelete nt url h₁ = Net.mockDelete nt url h₂ ∧
      Net.mockPatch nt url h₁ b₁ = Net.mockPatch nt url h₂ b₂ := by
  intro nt url h₁ h₂ b₁ b₂
  exact ⟨rfl, rfl, rfl, rfl, rfl⟩

/-- C9: the facade mock key construction is not injective — the distinct
argument pairs `("a", "b_c")` and `("a_b", "c")` both compute the key
`patch_html_a_b_c`, so in Mock mode `get_patch_html` returns the same
result for both, on every table. -/
theorem claim_c9_key_not_injective :
    (("a", "b_c") ≠ (("a_b", "c") : String × String)) ∧
    patchHtmlKey "a" "b_c" = "patch_html_a_b_c" ∧
    patchHtmlKey "a_b" "c" = "patch_html_a_b_c" ∧
    ∀ t : Table String,
      LoreApi.mockGetPatchHtml t "a" "b_c" = LoreApi.mockGetPatchHtml t "a_b" "c" := by
  refine ⟨by decide, by decide, by decide, ?_⟩
  intro t
  rfl

/-- C10: `LogLevel` parsing round-trips with display and is
case-insensitive — `from_str (l.to_string())` returns `Ok l` for every
level (`Display` giving INFO, WARN, ERROR), parsing depends on the input
only through its lowercasing, and it succeeds exactly when the lowercased
input is one of "info", "warn", "warning", "error". -/
theorem claim_c10_loglevel_roundtrip :
    (∀ l : LogLevel, LogLevel.fromStr (LogLevel.display l) = Except.ok l) ∧
    (LogLevel.display LogLevel.info = "INFO" ∧
      LogLevel.display LogLevel.warning = "WARN" ∧
      LogLevel.display LogLevel.error = "ERROR") ∧
    (∀ s t : String, lowerStr s = lowerStr t →
        ∀ l : LogLevel,
          (LogLevel.fromStr s = Except.ok l ↔ LogLevel.fromStr t = Except.ok l)) ∧
    (∀ s : String,
        (∃ l, LogLevel.fromStr s = Except.ok l) ↔
          (lowerStr s = "info" ∨ lowerStr s = "warn" ∨ lowerStr s = "warning" ∨
            lowerStr s = "error")) := by
  refine ⟨?_, ⟨rfl, rfl, rfl⟩, ?_, ?_⟩
  · intro l
    cases l <;> rfl
  · intro s t h l
    unfold LogLevel.fromStr
    rw [h]
    split_ifs <;> simp
  · intro s
    unfold LogLevel.fromStr
    split_ifs with h1 h2 h3 h4 <;> simp_all

end PhActors
